import Mathlib

/-!
Verification development for the Gold Trading Calculator
(src/gold_trading_ui.py).  The module-level computations of the script are
embedded shallowly over the rationals: Python floats become `Rat` (the
formulas involved are exact decimal arithmetic), Python lists become
`List`, and the script's module-level assignments become definitions
parameterised by the sidebar inputs they read.  Line numbers in the doc
comments refer to src/gold_trading_ui.py.
-/

namespace GoldCalc

/-- Account currencies offered by the sidebar selectbox (line 110). -/
inductive Currency
  | USD
  | EUR
  | GBP
  | CHF
  | AUD
  | CAD
  | JPY
  deriving DecidableEq, Repr

/-- Line 162: price gap between layers,
`distance_first_to_last_layer / (num_layers - 1) if num_layers > 1 else 0.0`. -/
def price_gap_pips (distance_first_to_last_layer : ℚ) (num_layers : ℕ) : ℚ :=
  if num_layers > 1 then distance_first_to_last_layer / ((num_layers : ℚ) - 1) else 0

/-- Line 163: `[sl_distance_pips - (i * price_gap_pips) for i in range(num_layers)]`. -/
def distance_to_sl_per_layer (sl_distance_pips gap : ℚ) (num_layers : ℕ) : List ℚ :=
  (List.range num_layers).map fun i : ℕ => sl_distance_pips - (i : ℚ) * gap

/-- Line 166: `scale = (lot_size_per_trade / 0.01) if lot_size_per_trade > 0 else 0.0`. -/
def scale (lot_size_per_trade : ℚ) : ℚ :=
  if lot_size_per_trade > 0 then lot_size_per_trade / 0.01 else 0

/-- Line 167: `[max(0.0, d) * pip_value * scale for d in distance_to_sl_per_layer]`. -/
def loss_per_trade_usd_per_layer (dists : List ℚ) (pip_value sc : ℚ) : List ℚ :=
  dists.map fun d => max 0 d * pip_value * sc

/-- Line 168: `profit_per_trade_usd = tp_distance_pips * pip_value * scale`. -/
def profit_per_trade_usd (tp_distance_pips pip_value sc : ℚ) : ℚ :=
  tp_distance_pips * pip_value * sc

/-- Line 171:
`sum(loss_per_trade_usd_per_layer[i] * trades_per_layer_list[i] for i in range(num_layers))`. -/
def theoretical_max_loss_usd (losses : List ℚ) (trades : List ℕ) (num_layers : ℕ) : ℚ :=
  ((List.range num_layers).map fun i => losses.getD i 0 * (trades.getD i 0 : ℚ)).sum

/-- Line 177:
`sum([trades_per_layer_list[i] * lot_size_per_trade for i in range(num_layers)])`. -/
def total_configured_lots (trades : List ℕ) (lot_size_per_trade : ℚ) (num_layers : ℕ) : ℚ :=
  ((List.range num_layers).map fun i => (trades.getD i 0 : ℚ) * lot_size_per_trade).sum

/-- Lines 217-228: `usd_to_account_currency`.  EUR/GBP/AUD divide by the quote
(with an explicit zero-rate guard returning 0.0), CAD/CHF/JPY multiply,
USD passes the amount through unchanged. -/
def usd_to_account_currency (account_currency : Currency)
    (conversion_rate_usd_to_account : ℚ) (amount_usd : ℚ) : ℚ :=
  if account_currency ∈ [Currency.EUR, Currency.GBP, Currency.AUD] then
    if conversion_rate_usd_to_account = 0 then 0
    else amount_usd / conversion_rate_usd_to_account
  else if account_currency ∈ [Currency.CAD, Currency.CHF, Currency.JPY] then
    amount_usd * conversion_rate_usd_to_account
  else
    amount_usd

/-- Line 244: `start_balance = 1000.0`. -/
def start_balance : ℚ := 1000

/-- Line 245: `end_balance = 100000.0`. -/
def end_balance : ℚ := 100000

/-- Lines 246-248: dynamic risk fraction.  The balance is clamped to
the interval from `start_balance` to `end_balance` and the fraction
interpolates linearly from 0.10 down to 0.025. -/
def risk_percent (balance : ℚ) : ℚ :=
  let b := max start_balance (min balance end_balance)
  0.10 - ((b - start_balance) / (end_balance - start_balance)) * (0.10 - 0.025)

/-- Line 250: `allowed_risk_percentage = risk_percent(account_balance) * 100.0`. -/
def allowed_risk_percentage (account_balance : ℚ) : ℚ :=
  risk_percent account_balance * 100

/-- Line 252: theoretical max risk percent, 0 when the balance is 0 (Python
truthiness guard `if account_balance else 0.0`). -/
def theoretical_max_risk_percentage (theoretical_max_loss_account account_balance : ℚ) : ℚ :=
  if account_balance = 0 then 0 else theoretical_max_loss_account / account_balance * 100

/-- Line 253: realized risk percent, same guard as the theoretical one. -/
def realized_risk_percentage (realized_loss_account account_balance : ℚ) : ℚ :=
  if account_balance = 0 then 0 else realized_loss_account / account_balance * 100

/-- Line 259: `contract_size = 100` (ounces per standard lot). -/
def contract_size : ℚ := 100

/-- Line 260:
`margin_required_usd = (total_configured_lots * contract_size * xauusd_price) / leverage_ratio`. -/
def margin_required_usd (total_lots xauusd_price : ℚ) (leverage_ratio : ℤ) : ℚ :=
  total_lots * contract_size * xauusd_price / (leverage_ratio : ℚ)

/-- Line 262: margin usage percent, 0 when the balance is 0. -/
def margin_usage_percentage (margin_required_account account_balance : ℚ) : ℚ :=
  if account_balance = 0 then 0 else margin_required_account / account_balance * 100

/-- Line 263: `free_margin_account = account_balance - margin_required_account`. -/
def free_margin_account (account_balance margin_required_account : ℚ) : ℚ :=
  account_balance - margin_required_account

/-- Outcome of the risk assessment if/elif chain, lines 297-304.  The four
branches are, in order: the error banner (theoretical max risk exceeds the
allowed risk), the warning banner (realized losses exceed the allowed
risk), the approaching-threshold warning, and the success banner. -/
inductive RiskStatus
  | riskTooHigh
  | realizedExceedsAllowed
  | approachingLimit
  | withinRange
  deriving DecidableEq, Repr

/-- Lines 297-304: the risk assessment chain, a pure function of the
theoretical max risk percent, the realized risk percent and the allowed
risk percent. -/
def risk_assessment (theoretical_pct realized_pct allowed_pct : ℚ) : RiskStatus :=
  if theoretical_pct > allowed_pct then .riskTooHigh
  else if realized_pct > allowed_pct then .realizedExceedsAllowed
  else if realized_pct > allowed_pct * 0.75 then .approachingLimit
  else .withinRange

/-- Outcome of the margin message if/elif chain, lines 333-340. -/
inductive MarginStatus
  | tooHigh
  | high
  | moderate
  | healthy
  deriving DecidableEq, Repr

/-- Lines 333-340: the margin message chain, a pure function of the margin
usage percent. -/
def margin_status (margin_usage_pct : ℚ) : MarginStatus :=
  if margin_usage_pct > 50 then .tooHigh
  else if margin_usage_pct > 30 then .high
  else if margin_usage_pct > 10 then .moderate
  else .healthy

/-- Spec-worded allowed-risk formula of claim C1 (anchors 1000 and 150000),
kept separate from `risk_percent` so the two can be compared: the source's
`risk_percent` uses `end_balance = 100000`, not 150000. -/
def allowedRiskPct_spec (balance : ℚ) : ℚ :=
  (0.10 - (max 1000 (min balance 150000) - 1000) / (150000 - 1000) * (0.10 - 0.025)) * 100

/-- Sidebar and simulation inputs read by the module-level computation
(lines 101-156): strategy parameters, account/margin parameters, and the
per-layer planned, opened and TP-hit trade counts. -/
structure Inputs where
  num_layers : ℕ
  lot_size_per_trade : ℚ
  pip_value : ℚ
  sl_distance_pips : ℚ
  tp_distance_pips : ℚ
  distance_first_to_last_layer : ℚ
  account_balance : ℚ
  account_currency : Currency
  conversion_rate_usd_to_account : ℚ
  leverage_ratio : ℤ
  xauusd_price : ℚ
  trades_per_layer_list : List ℕ
  opened_trades_per_layer : List ℕ
  tp_hits_per_layer : List ℕ

/-- The numeric module-level results of one evaluation of the script
(lines 162-263). -/
structure Outputs where
  theoretical_max_loss_usd : ℚ
  total_configured_lots : ℚ
  total_profit_usd : ℚ
  total_realized_loss_usd : ℚ
  net_realized_pl_usd : ℚ
  allowed_risk_percentage : ℚ
  theoretical_max_risk_percentage : ℚ
  realized_risk_percentage : ℚ
  margin_required_usd : ℚ
  margin_usage_percentage : ℚ
  free_margin_account : ℚ

/-- One full evaluation of the script's core calculations (lines 162-263),
chaining layer geometry, exposure, the simulated profit/loss loop
(lines 182-194), currency conversion, risk percentages and margin. -/
def evalAll (inp : Inputs) : Outputs :=
  let gap := price_gap_pips inp.distance_first_to_last_layer inp.num_layers
  let dists := distance_to_sl_per_layer inp.sl_distance_pips gap inp.num_layers
  let sc := scale inp.lot_size_per_trade
  let losses := loss_per_trade_usd_per_layer dists inp.pip_value sc
  let profit_per_trade := profit_per_trade_usd inp.tp_distance_pips inp.pip_value sc
  let theo_usd := theoretical_max_loss_usd losses inp.trades_per_layer_list inp.num_layers
  let lots := total_configured_lots inp.trades_per_layer_list inp.lot_size_per_trade inp.num_layers
  let total_profit := ((List.range inp.num_layers).map fun i =>
      (inp.tp_hits_per_layer.getD i 0 : ℚ) * profit_per_trade).sum
  let total_realized_loss := ((List.range inp.num_layers).map fun i =>
      ((inp.opened_trades_per_layer.getD i 0 : ℚ) - (inp.tp_hits_per_layer.getD i 0 : ℚ))
        * losses.getD i 0).sum
  let theo_account :=
    usd_to_account_currency inp.account_currency inp.conversion_rate_usd_to_account theo_usd
  let realized_account :=
    usd_to_account_currency inp.account_currency inp.conversion_rate_usd_to_account
      total_realized_loss
  let m_usd := margin_required_usd lots inp.xauusd_price inp.leverage_ratio
  let m_account :=
    usd_to_account_currency inp.account_currency inp.conversion_rate_usd_to_account m_usd
  { theoretical_max_loss_usd := theo_usd
    total_configured_lots := lots
    total_profit_usd := total_profit
    total_realized_loss_usd := total_realized_loss
    net_realized_pl_usd := total_profit - total_realized_loss
    allowed_risk_percentage := allowed_risk_percentage inp.account_balance
    theoretical_max_risk_percentage :=
      theoretical_max_risk_percentage theo_account inp.account_balance
    realized_risk_percentage := realized_risk_percentage realized_account inp.account_balance
    margin_required_usd := m_usd
    margin_usage_percentage := margin_usage_percentage m_account inp.account_balance
    free_margin_account := free_margin_account inp.account_balance m_account }

/-- Replace only the simulation inputs (opened trades and TP hits per
layer) of an input bundle, keeping every planned input unchanged. -/
def withSimulation (inp : Inputs) (o t : List ℕ) : Inputs :=
  { inp with opened_trades_per_layer := o, tp_hits_per_layer := t }

/-- C5: for numLayers >= 1, the layer geometry sets
priceGapPips = firstToLastLayerDistancePips / (numLayers - 1) when
numLayers > 1 and 0 when numLayers = 1, and for every 0-based index
i < numLayers the i-th distance is slDistancePips - i * priceGapPips,
returned raw (possibly negative, unclamped). -/
theorem layerGeometry_spec (num_layers : ℕ) (dfl sl : ℚ) (h : 1 ≤ num_layers) :
    (1 < num_layers → price_gap_pips dfl num_layers = dfl / ((num_layers : ℚ) - 1))
  ∧ (num_layers = 1 → price_gap_pips dfl num_layers = 0)
  ∧ (distance_to_sl_per_layer sl (price_gap_pips dfl num_layers) num_layers).length = num_layers
  ∧ ∀ i, i < num_layers →
      (distance_to_sl_per_layer sl (price_gap_pips dfl num_layers) num_layers).getD i 0
        = sl - (i : ℚ) * price_gap_pips dfl num_layers := by
  refine ⟨fun h1 => by simp [price_gap_pips, h1],
          fun h1 => by simp [price_gap_pips, h1],
          by rw [distance_to_sl_per_layer, List.length_map, List.length_range], ?_⟩
  intro i hi
  rw [distance_to_sl_per_layer, List.getD_eq_getElem?_getD, List.getElem?_map,
    List.getElem?_range hi]
  rfl

/-- Witness for layerGeometry_spec at numLayers = 6, distance 30, SL 80
(the UI defaults): the gap is 6 pips and layer index 3 sits 62 pips from
the stop. -/
theorem layerGeometry_spec_witness :
    price_gap_pips 30 6 = 6
  ∧ (distance_to_sl_per_layer 80 (price_gap_pips 30 6) 6).getD 3 0
      = 80 - 3 * price_gap_pips 30 6 := by
  have h := layerGeometry_spec 6 30 80 (by norm_num)
  have h1 := h.1 (by norm_num)
  refine ⟨?_, h.2.2.2 3 (by norm_num)⟩
  rw [h1]
  norm_num

/-- C2: with a positive lot size, scale = lotSizePerTrade / 0.01, each
per-layer per-trade loss is max 0 (distance) * pipValue * scale (so a
negative distance contributes exactly 0), the theoretical max loss is the
sum over layers of loss * plannedTrades, and the total lots are the sum
over layers of plannedTrades * lotSizePerTrade. -/
theorem exposureCalculator_spec (dists : List ℚ) (pip_value lot : ℚ) (trades : List ℕ)
    (num_layers : ℕ) (hlot : 0 < lot) :
    scale lot = lot / 0.01
  ∧ loss_per_trade_usd_per_layer dists pip_value (scale lot)
      = dists.map (fun d => max 0 d * pip_value * (lot / 0.01))
  ∧ (∀ i, i < dists.length → dists.getD i 0 < 0 →
      (loss_per_trade_usd_per_layer dists pip_value (scale lot)).getD i 0 = 0)
  ∧ theoretical_max_loss_usd (loss_per_trade_usd_per_layer dists pip_value (scale lot))
        trades num_layers
      = ((List.range num_layers).map fun i =>
          (loss_per_trade_usd_per_layer dists pip_value (scale lot)).getD i 0
            * (trades.getD i 0 : ℚ)).sum
  ∧ total_configured_lots trades lot num_layers
      = ((List.range num_layers).map fun i => (trades.getD i 0 : ℚ) * lot).sum := by
  have hsc : scale lot = lot / 0.01 := by simp [scale, hlot]
  refine ⟨hsc, by rw [loss_per_trade_usd_per_layer, hsc], ?_, rfl, rfl⟩
  intro i hi hneg
  rw [List.getD_eq_getElem dists 0 hi] at hneg
  rw [List.getD_eq_getElem?_getD, loss_per_trade_usd_per_layer, List.getElem?_map,
    List.getElem?_eq_getElem hi]
  show max 0 dists[i] * pip_value * scale lot = 0
  rw [max_eq_left (le_of_lt hneg), zero_mul, zero_mul]

/-- Witness for exposureCalculator_spec: lot 0.02 gives scale 2, and the
layer whose raw distance is -5 contributes a zero per-trade loss. -/
theorem exposureCalculator_spec_witness :
    scale 0.02 = 0.02 / 0.01
  ∧ (loss_per_trade_usd_per_layer [80, -5] 0.1 (scale 0.02)).getD 1 0 = 0 := by
  have h := exposureCalculator_spec [80, -5] 0.1 0.02 [4, 4] 2 (by norm_num)
  exact ⟨h.1, h.2.2.1 1 (by norm_num)
    (by norm_num [List.getD_cons_succ, List.getD_cons_zero])⟩

/-- C4: with a positive rate, USD amounts are divided by the rate for
EUR/GBP/AUD accounts, multiplied by the rate for CAD/CHF/JPY accounts, and
passed through unchanged for USD accounts. -/
theorem usdToAccount_direction_spec (x r : ℚ) (hr : 0 < r) :
    usd_to_account_currency Currency.EUR r x = x / r
  ∧ usd_to_account_currency Currency.GBP r x = x / r
  ∧ usd_to_account_currency Currency.AUD r x = x / r
  ∧ usd_to_account_currency Currency.CAD r x = x * r
  ∧ usd_to_account_currency Currency.CHF r x = x * r
  ∧ usd_to_account_currency Currency.JPY r x = x * r
  ∧ usd_to_account_currency Currency.USD r x = x := by
  have hr' : r ≠ 0 := ne_of_gt hr
  refine ⟨?_, ?_, ?_, ?_, ?_, ?_, ?_⟩ <;> simp [usd_to_account_currency, hr']

/-- Witness for usdToAccount_direction_spec at amount 108, rate 1.08:
an EUR account receives 108 / 1.08 and a CAD account 108 * 1.08. -/
theorem usdToAccount_direction_spec_witness :
    usd_to_account_currency Currency.EUR 1.08 108 = 108 / 1.08
  ∧ usd_to_account_currency Currency.CAD 1.08 108 = 108 * 1.08 :=
  ⟨(usdToAccount_direction_spec 108 1.08 (by norm_num)).1,
   (usdToAccount_direction_spec 108 1.08 (by norm_num)).2.2.2.1⟩

/-- C10: for every rational balance, risk_percent lies in the closed
interval from 0.025 to 0.10; it equals 0.10 for balances at most 1000,
equals 0.025 for balances at least 100000, and is strictly between the two
endpoints on the open interval from 1000 to 100000. -/
theorem riskPercent_bounds (b : ℚ) :
    0.025 ≤ risk_percent b
  ∧ risk_percent b ≤ 0.10
  ∧ (b ≤ 1000 → risk_percent b = 0.10)
  ∧ (100000 ≤ b → risk_percent b = 0.025)
  ∧ (1000 < b → b < 100000 → 0.025 < risk_percent b ∧ risk_percent b < 0.10) := by
  have hc1 : (1000:ℚ) ≤ max 1000 (min b 100000) := le_max_left _ _
  have hc2 : max (1000:ℚ) (min b 100000) ≤ 100000 :=
    max_le (by norm_num) (min_le_right _ _)
  simp only [risk_percent, start_balance, end_balance]
  refine ⟨by nlinarith, by nlinarith, ?_, ?_, ?_⟩
  · intro hb
    rw [min_eq_left (by linarith : b ≤ (100000:ℚ)), max_eq_left hb]
    norm_num
  · intro hb
    rw [min_eq_right (by linarith : (100000:ℚ) ≤ b), max_eq_right (by norm_num)]
    norm_num
  · intro hb1 hb2
    rw [min_eq_left (le_of_lt hb2), max_eq_right (le_of_lt hb1)]
    constructor <;> nlinarith

/-- Witness for riskPercent_bounds: 0.10 at balance 500, 0.025 at balance
200000, and strictly inside the interval at balance 50500. -/
theorem riskPercent_bounds_witness :
    risk_percent 500 = 0.10
  ∧ risk_percent 200000 = 0.025
  ∧ 0.025 < risk_percent 50500 ∧ risk_percent 50500 < 0.10 :=
  ⟨(riskPercent_bounds 500).2.2.1 (by norm_num),
   (riskPercent_bounds 200000).2.2.2.1 (by norm_num),
   (riskPercent_bounds 50500).2.2.2.2 (by norm_num) (by norm_num)⟩

/-- C1 counterexample: at balance 50500 the code's allowed-risk percentage
is 6.25 (interpolation clamped to 1000..100000), while the claimed formula
with upper anchor 150000 yields a different value; the two functions
disagree. -/
theorem allowedRisk_anchor_refuted :
    allowed_risk_percentage 50500 = 6.25
  ∧ allowedRiskPct_spec 50500 ≠ 6.25
  ∧ allowed_risk_percentage 50500 ≠ allowedRiskPct_spec 50500 := by
  refine ⟨?_, ?_, ?_⟩ <;>
    norm_num [allowed_risk_percentage, risk_percent, allowedRiskPct_spec,
      start_balance, end_balance, min_def, max_def]

/-- C1 amended: the allowed-risk percentage clamps the balance to the
interval 1000..100000 (not 150000) and interpolates linearly from 10% at
1000 down to 2.5% at 100000; it equals 10 at balance 1000, 2.5 at 100000
(hence also 2.5 at 150000 by clamping), and is constant below 1000 and
above 100000. -/
theorem allowedRisk_formula (b : ℚ) :
    allowed_risk_percentage b
      = (0.10 - (max 1000 (min b 100000) - 1000) / (100000 - 1000) * (0.10 - 0.025)) * 100
  ∧ allowed_risk_percentage 1000 = 10
  ∧ allowed_risk_percentage 100000 = 2.5
  ∧ allowed_risk_percentage 150000 = 2.5
  ∧ (b < 1000 → allowed_risk_percentage b = allowed_risk_percentage 1000)
  ∧ (b > 100000 → allowed_risk_percentage b = allowed_risk_percentage 100000) := by
  refine ⟨rfl, ?_, ?_, ?_, ?_, ?_⟩
  · norm_num [allowed_risk_percentage, risk_percent, start_balance, end_balance,
      min_def, max_def]
  · norm_num [allowed_risk_percentage, risk_percent, start_balance, end_balance,
      min_def, max_def]
  · norm_num [allowed_risk_percentage, risk_percent, start_balance, end_balance,
      min_def, max_def]
  · intro hb
    have h1 : min b 100000 = b := min_eq_left (by linarith)
    have h2 : max (1000:ℚ) b = 1000 := max_eq_left (le_of_lt hb)
    simp only [allowed_risk_percentage, risk_percent, start_balance, end_balance, h1, h2]
    norm_num [min_def, max_def]
  · intro hb
    have h1 : min b 100000 = (100000:ℚ) := min_eq_right (le_of_lt hb)
    simp only [allowed_risk_percentage, risk_percent, start_balance, end_balance, h1]
    norm_num [min_def, max_def]

/-- Witness for allowedRisk_formula: the curve is flat below 1000 and above
100000. -/
theorem allowedRisk_formula_witness :
    allowed_risk_percentage 500 = allowed_risk_percentage 1000
  ∧ allowed_risk_percentage 150000 = allowed_risk_percentage 100000 :=
  ⟨(allowedRisk_formula 500).2.2.2.2.1 (by norm_num),
   (allowedRisk_formula 150000).2.2.2.2.2 (by norm_num)⟩

/-- C3 counterexample: with a zero rate an EUR account gets 0 back from
usd_to_account_currency, not the unconverted USD amount 100 the claim
requires. -/
theorem usdToAccount_zero_rate_refuted :
    usd_to_account_currency Currency.EUR 0 100 = 0
  ∧ usd_to_account_currency Currency.EUR 0 100 ≠ 100 := by
  refine ⟨?_, ?_⟩ <;> norm_num [usd_to_account_currency]

/-- C3 amended: with a zero rate usd_to_account_currency is total and
returns 0 for every non-USD account currency (the explicit zero-rate guard
for EUR/GBP/AUD, and multiplication by 0 for CAD/CHF/JPY); for USD
accounts the rate is unused and the amount passes through unchanged. It
does not fall back to treating the rate as 1. -/
theorem usdToAccount_zero_rate_spec (x : ℚ) (c : Currency) :
    (c ≠ Currency.USD → usd_to_account_currency c 0 x = 0)
  ∧ usd_to_account_currency Currency.USD 0 x = x := by
  refine ⟨fun hc => ?_, by simp [usd_to_account_currency]⟩
  cases c
  all_goals first
    | exact absurd rfl hc
    | simp [usd_to_account_currency]

/-- Witness for usdToAccount_zero_rate_spec at amount 250: a JPY account
receives 0, a USD account receives 250. -/
theorem usdToAccount_zero_rate_spec_witness :
    usd_to_account_currency Currency.JPY 0 250 = 0
  ∧ usd_to_account_currency Currency.USD 0 250 = 250 :=
  ⟨(usdToAccount_zero_rate_spec 250 Currency.JPY).1 (by simp),
   (usdToAccount_zero_rate_spec 250 Currency.USD).2⟩

/-- C6: margin required is totalLots * 100 * goldPrice / leverageRatio
(contract size 100 ounces per standard lot), converted to the account
currency by usd_to_account_currency; margin usage is that amount over the
balance times 100, and 0 when the balance is 0 (no exception); free margin
is balance minus the converted margin and can be negative. -/
theorem marginEvaluator_spec (L p : ℚ) (N : ℤ) (hN : 0 < N) (b r : ℚ) (c : Currency) :
    margin_required_usd L p N = L * 100 * p / (N : ℚ)
  ∧ (b = 0 →
      margin_usage_percentage (usd_to_account_currency c r (margin_required_usd L p N)) b = 0)
  ∧ (b ≠ 0 →
      margin_usage_percentage (usd_to_account_currency c r (margin_required_usd L p N)) b
        = usd_to_account_currency c r (margin_required_usd L p N) / b * 100)
  ∧ free_margin_account b (usd_to_account_currency c r (margin_required_usd L p N))
      = b - usd_to_account_currency c r (margin_required_usd L p N)
  ∧ ∃ b' m', free_margin_account b' m' < 0 := by
  refine ⟨rfl, fun hb => by simp [margin_usage_percentage, hb],
    fun hb => by simp [margin_usage_percentage, hb], rfl, 0, 1, ?_⟩
  norm_num [free_margin_account]

/-- Witness for marginEvaluator_spec: 0.24 lots at gold 1950 under 1:500
leverage, and margin usage is 0 on a zero balance. -/
theorem marginEvaluator_spec_witness :
    margin_required_usd 0.24 1950 500 = 0.24 * 100 * 1950 / 500
  ∧ margin_usage_percentage
      (usd_to_account_currency Currency.USD 1 (margin_required_usd 0.24 1950 500)) 0 = 0 := by
  have h := marginEvaluator_spec 0.24 1950 500 (by norm_num) 0 1 Currency.USD
  exact ⟨by rw [h.1]; norm_num, h.2.1 rfl⟩

/-- C7 counterexample: a lot size of -0.01 is not rejected; the script
silently sets scale to 0, every per-trade loss becomes 0 and the
theoretical max loss evaluates to 0 — a silent coercion to a zero-valued
computation, not a rejected evaluation. -/
theorem nonpositiveLot_not_rejected :
    scale (-0.01) = 0
  ∧ loss_per_trade_usd_per_layer [80, 72] 0.1 (scale (-0.01)) = [0, 0]
  ∧ theoretical_max_loss_usd
      (loss_per_trade_usd_per_layer [80, 72] 0.1 (scale (-0.01))) [4, 4] 2 = 0 := by
  refine ⟨?_, ?_, ?_⟩ <;>
    norm_num [scale, loss_per_trade_usd_per_layer, theoretical_max_loss_usd,
      List.range_succ, List.getD_cons_zero, List.getD_cons_succ]

/-- C7 amended: for every non-positive lot size the evaluation is not
rejected: scale is silently set to 0 and the theoretical max loss
evaluates to 0 whatever the distances, pip value and trade counts are;
non-positive pip values likewise flow through the computation (only the
UI input widgets restrict both parameters to at least 0.01). -/
theorem nonpositiveLot_coerced_to_zero (lot pip_value : ℚ) (dists : List ℚ)
    (trades : List ℕ) (num_layers : ℕ) (hlot : lot ≤ 0) :
    scale lot = 0
  ∧ theoretical_max_loss_usd (loss_per_trade_usd_per_layer dists pip_value (scale lot))
      trades num_layers = 0 := by
  have hsc : scale lot = 0 := by simp [scale, not_lt.mpr hlot]
  have hzero : ∀ i : ℕ, (loss_per_trade_usd_per_layer dists pip_value 0).getD i 0 = 0 := by
    intro i
    rw [loss_per_trade_usd_per_layer, List.getD_eq_getElem?_getD, List.getElem?_map]
    cases dists[i]? with
    | none => rfl
    | some d => simp
  refine ⟨hsc, ?_⟩
  rw [hsc]
  unfold theoretical_max_loss_usd
  apply List.sum_eq_zero
  intro x hx
  simp only [List.mem_map, List.mem_range] at hx
  obtain ⟨i, _, rfl⟩ := hx
  rw [hzero i, zero_mul]

/-- Witness for nonpositiveLot_coerced_to_zero at lot 0: scale is 0 and
the theoretical max loss of a 2-layer plan is 0. -/
theorem nonpositiveLot_coerced_to_zero_witness :
    scale 0 = 0
  ∧ theoretical_max_loss_usd (loss_per_trade_usd_per_layer [50, 40] 0.2 (scale 0))
      [2, 3] 2 = 0 :=
  nonpositiveLot_coerced_to_zero 0 0.2 [50, 40] [2, 3] 2 (le_refl 0)

/-- C8 counterexample: the risk banner is not a trichotomy in a single
actual-risk percentage.  With theoretical 7, realized 0, allowed 8, the
claim mandates the approaching-limit status (7 is above three quarters of
8 and not above 8) but the code shows the within-range banner; and with
theoretical 0, realized 9, allowed 8 the code shows the
realized-exceeds-allowed warning, a fourth status distinct from the
claimed risk-too-high. -/
theorem riskStatus_single_metric_refuted :
    ((7:ℚ) > 0.75 * 8 ∧ ¬ ((7:ℚ) > 8)
      ∧ risk_assessment 7 0 8 = RiskStatus.withinRange)
  ∧ ((9:ℚ) > 8 ∧ risk_assessment 0 9 8 = RiskStatus.realizedExceedsAllowed
      ∧ RiskStatus.realizedExceedsAllowed ≠ RiskStatus.riskTooHigh) := by
  refine ⟨⟨by norm_num, by norm_num, ?_⟩, by norm_num, ?_, by simp⟩ <;>
    norm_num [risk_assessment]

/-- C8 amended: the risk classification is a pure if/elif chain over three
percentages (theoretical max risk, realized risk, allowed risk): risk too
high exactly when theoretical exceeds allowed; else a distinct
realized-exceeds-allowed warning when realized exceeds allowed; else
approaching limit when realized exceeds 0.75 of allowed; else within
range.  The margin status is as claimed: too high above 50, high above 30,
moderate above 10, else healthy. -/
theorem statusClassification_spec (t r a u : ℚ) :
    (risk_assessment t r a = RiskStatus.riskTooHigh ↔ t > a)
  ∧ (risk_assessment t r a = RiskStatus.realizedExceedsAllowed ↔ ¬ t > a ∧ r > a)
  ∧ (risk_assessment t r a = RiskStatus.approachingLimit
      ↔ ¬ t > a ∧ ¬ r > a ∧ r > a * 0.75)
  ∧ (risk_assessment t r a = RiskStatus.withinRange
      ↔ ¬ t > a ∧ ¬ r > a ∧ ¬ r > a * 0.75)
  ∧ (margin_status u = MarginStatus.tooHigh ↔ u > 50)
  ∧ (margin_status u = MarginStatus.high ↔ ¬ u > 50 ∧ u > 30)
  ∧ (margin_status u = MarginStatus.moderate ↔ ¬ u > 50 ∧ ¬ u > 30 ∧ u > 10)
  ∧ (margin_status u = MarginStatus.healthy ↔ ¬ u > 50 ∧ ¬ u > 30 ∧ ¬ u > 10) := by
  unfold risk_assessment margin_status
  refine ⟨?_, ?_, ?_, ?_, ?_, ?_, ?_, ?_⟩ <;> split_ifs <;> simp_all

/-- Witness for statusClassification_spec: theoretical 9 against allowed 8
is risk too high, and margin usage 55 is too high. -/
theorem statusClassification_spec_witness :
    risk_assessment 9 0 8 = RiskStatus.riskTooHigh
  ∧ margin_status 55 = MarginStatus.tooHigh :=
  ⟨(statusClassification_spec 9 0 8 55).1.mpr (by norm_num),
   (statusClassification_spec 9 0 8 55).2.2.2.2.1.mpr (by norm_num)⟩

/-- C9: two evaluations that differ only in the simulation inputs (opened
trades per layer and TP hits per layer) produce identical planned-side
outputs: theoretical max loss, total configured lots, margin required,
allowed risk percentage and theoretical max risk percentage.  The
simulation inputs influence only the realized profit/loss figures. -/
theorem simulation_noninterference (inp : Inputs) (o t : List ℕ) :
    (evalAll (withSimulation inp o t)).theoretical_max_loss_usd
      = (evalAll inp).theoretical_max_loss_usd
  ∧ (evalAll (withSimulation inp o t)).total_configured_lots
      = (evalAll inp).total_configured_lots
  ∧ (evalAll (withSimulation inp o t)).margin_required_usd
      = (evalAll inp).margin_required_usd
  ∧ (evalAll (withSimulation inp o t)).allowed_risk_percentage
      = (evalAll inp).allowed_risk_percentage
  ∧ (evalAll (withSimulation inp o t)).theoretical_max_risk_percentage
      = (evalAll inp).theoretical_max_risk_percentage :=
  ⟨rfl, rfl, rfl, rfl, rfl⟩

end GoldCalc
